import Mathlib

/-!
Shallow embedding of the solyield repository (Express routes, Prisma-backed
storage and the client investment workflow) together with proofs about the
behaviour of its operations.

The data model follows `src/prisma/schema.prisma`; the storage operations
follow `DatabaseStorage` in the server storage module; the route handlers
follow `registerRoutes` in `src/server/routes.ts`; the client investment
workflow follows `investMutation.mutationFn` in
`src/client/src/components/modals/investment-modal.tsx` together with the
swap and liquidity helpers in `src/client/src/lib/solanaSwap.ts` and the
Raydium staking library.  External network calls (Solana RPC, Raydium API,
OpenAI) are modelled as oracle inputs carried by environment records; the
relational store is modelled as explicit state threaded through each
operation, and fallible code returns `Except`.
-/

namespace SolYield

/-! ## Data model (src/prisma/schema.prisma) -/

/-- A row of the `users` table: `id`, unique `wallet_address`, optional
profile fields.  Dates are modelled as natural numbers. -/
structure UserRow where
  id : Nat
  walletAddress : String
  username : Option String := none
  email : Option String := none
  lastLogin : Option Nat := none
deriving Repr, DecidableEq

/-- A row of the `solana_subscriptions` table. -/
structure SubscriptionRow where
  id : Nat
  userId : Nat
  subscriptionDate : Nat
  transactionHash : Option String := none
  amount : ℚ
  currency : String := "USDC"
  isActive : Bool := true
deriving Repr, DecidableEq

/-- A row of the `user_preferences` table (only the fields the routes use). -/
structure PreferenceRow where
  userId : Nat
  riskTolerance : String
  notificationsEnabled : Bool := true
deriving Repr, DecidableEq

/-- A row of the `yield_opportunities` table (fields used by the routes). -/
structure OpportunityRow where
  id : Nat
  name : String
  protocol : String
  apy : ℚ
deriving Repr, DecidableEq

/-- A row of the `user_portfolios` table. -/
structure PortfolioRow where
  id : Nat
  userId : Nat
  opportunityId : Nat
  amount : ℚ
  depositDate : Nat
  token : String
  active : Bool
deriving Repr, DecidableEq

/-- A row of the `transactions` table. -/
structure TransactionRow where
  id : Nat
  userId : Nat
  opportunityId : Nat
  transactionType : String
  amount : ℚ
  token : String
  transactionDate : Nat
  status : String
  transactionHash : Option String
deriving Repr, DecidableEq

/-- The relational store: the tables of the Prisma schema plus
auto-increment counters, a clock for `new Date()` and the next value of the
development transaction-hash generator (`generateFakeTransactionHash`). -/
structure Store where
  users : List UserRow := []
  prefs : List PreferenceRow := []
  subscriptions : List SubscriptionRow := []
  portfolios : List PortfolioRow := []
  transactions : List TransactionRow := []
  opportunities : List OpportunityRow := []
  nextUserId : Nat := 1
  nextSubId : Nat := 1
  nextPortfolioId : Nat := 1
  nextTxId : Nat := 1
  now : Nat := 0
  freshHash : String := "deadbeef"
deriving Repr, DecidableEq

/-! ## Storage operations (DatabaseStorage) -/

/-- `getUserByWalletAddress`: `prisma.user.findUnique({ where: { walletAddress } })`. -/
def getUserByWalletAddress (s : Store) (walletAddress : String) : Option UserRow :=
  s.users.find? (fun u => u.walletAddress == walletAddress)

/-- Prisma errors surfaced to route handlers.  `P2002` is the
unique-constraint violation; the handlers inspect `error.code` and
`error.meta.target`. -/
inductive PrismaErr where
  | p2002WalletAddress
  | p2002UserId
  | other (msg : String)
deriving Repr, DecidableEq

/-- `createUser`: `prisma.user.create`.  The `@unique` constraint on
`wallet_address` makes the insert fail with `P2002` when a row with the same
address already exists. -/
def createUser (s : Store) (walletAddress : String) (username email : Option String)
    (lastLogin : Option Nat) : Except PrismaErr (Store × UserRow) :=
  if s.users.any (fun u => u.walletAddress == walletAddress) then
    .error .p2002WalletAddress
  else
    let u : UserRow :=
      { id := s.nextUserId, walletAddress := walletAddress, username := username,
        email := email, lastLogin := lastLogin }
    .ok ({ s with users := s.users ++ [u], nextUserId := s.nextUserId + 1 }, u)

/-- Insert into a list sorted by `subscriptionDate` in descending order. -/
def insertDateDesc (x : SubscriptionRow) : List SubscriptionRow → List SubscriptionRow
  | [] => [x]
  | y :: ys =>
    if y.subscriptionDate ≤ x.subscriptionDate then x :: y :: ys
    else y :: insertDateDesc x ys

/-- Sort subscriptions by `subscriptionDate` in descending order
(`orderBy: { subscriptionDate: 'desc' }`). -/
def sortDateDesc : List SubscriptionRow → List SubscriptionRow
  | [] => []
  | x :: xs => insertDateDesc x (sortDateDesc xs)

/-- `getUserSubscription`: `prisma.solanaSubscription.findFirst` over rows of
the user with `isActive: true`, ordered by `subscriptionDate` descending. -/
def getUserSubscription (s : Store) (userId : Nat) : Option SubscriptionRow :=
  (sortDateDesc (s.subscriptions.filter (fun x => x.userId == userId && x.isActive))).head?

/-- `checkUserIsSubscribed`: `!!subscription && subscription.isActive` on the
result of `getUserSubscription`. -/
def checkUserIsSubscribed (s : Store) (userId : Nat) : Bool :=
  match getUserSubscription s userId with
  | some sub => sub.isActive
  | none => false

/-- `createSubscription`: `prisma.solanaSubscription.create`. -/
def createSubscription (s : Store) (userId : Nat) (transactionHash : Option String)
    (amount : ℚ) (currency : String) (isActive : Bool) : Store × SubscriptionRow :=
  let row : SubscriptionRow :=
    { id := s.nextSubId, userId := userId, subscriptionDate := s.now,
      transactionHash := transactionHash, amount := amount, currency := currency,
      isActive := isActive }
  ({ s with subscriptions := s.subscriptions ++ [row], nextSubId := s.nextSubId + 1 }, row)

/-- `createUserPreferences`: `prisma.userPreference.create`; `@unique` on
`user_id` makes the insert fail when a row for the user exists. -/
def createUserPreferences (s : Store) (userId : Nat) (riskTolerance : String)
    (notificationsEnabled : Bool) : Except PrismaErr Store :=
  if s.prefs.any (fun p => p.userId == userId) then .error .p2002UserId
  else
    .ok { s with
          prefs := s.prefs ++ [{ userId := userId, riskTolerance := riskTolerance,
                                 notificationsEnabled := notificationsEnabled }] }

/-- Character-level helper for JavaScript `parseInt`: the longest prefix of
decimal digits. -/
def takeDigits : List Char → List Char
  | [] => []
  | c :: cs => if c.isDigit then c :: takeDigits cs else []

/-- JavaScript `parseInt(s, 10)` restricted to the non-negative case used by
the storage layer (user ids rendered with `toString()`): skip leading
spaces, read the longest digit prefix, `NaN` (here `none`) when empty. -/
def parseIntJs (str : String) : Option Nat :=
  let cs := str.toList.dropWhile (fun c => c = ' ')
  let ds := takeDigits cs
  if ds.isEmpty then none
  else some ((ds.map (fun c => c.toNat - '0'.toNat)).foldl (fun acc d => 10 * acc + d) 0)

/-- The request body accepted by `createInvestment`
(`insertUserPortfolioSchema`). -/
structure InsertUserPortfolio where
  opportunityId : Nat
  amount : ℚ
  depositDate : Nat := 0
  token : String
  active : Bool := true
deriving Repr, DecidableEq

/-- `DatabaseStorage.createInvestment`: parse the user id; create a
`user_portfolios` row; create a `transactions` row with type `invest` and
status `completed`; then look the opportunity up and fail with
`Opportunity not found` when it is missing (the two rows written before the
lookup persist either way, as in the source). -/
def createInvestment (s : Store) (userId : String) (data : InsertUserPortfolio) :
    Store × Except String PortfolioRow :=
  match parseIntJs userId with
  | none => (s, .error "Invalid user ID")
  | some uid =>
    let investment : PortfolioRow :=
      { id := s.nextPortfolioId, userId := uid, opportunityId := data.opportunityId,
        amount := data.amount, depositDate := data.depositDate, token := data.token,
        active := data.active }
    let txRow : TransactionRow :=
      { id := s.nextTxId, userId := uid, opportunityId := data.opportunityId,
        transactionType := "invest", amount := data.amount, token := data.token,
        transactionDate := s.now, status := "completed",
        transactionHash := some s.freshHash }
    let s2 : Store :=
      { s with portfolios := s.portfolios ++ [investment],
               transactions := s.transactions ++ [txRow],
               nextPortfolioId := s.nextPortfolioId + 1,
               nextTxId := s.nextTxId + 1 }
    match s.opportunities.find? (fun o => o.id == data.opportunityId) with
    | none => (s2, .error "Opportunity not found")
    | some _ => (s2, .ok investment)

/-! ## Route handlers (src/server/routes.ts) -/

/-- The session wallet status returned by `solanaService.getWalletStatus`. -/
structure WalletStatus where
  connected : Bool
  userId : Option Nat := none
  address : Option String := none
deriving Repr, DecidableEq

/-- Responses of `POST /api/chat`. -/
inductive ChatResult where
  | badRequest (msg : String)
  | unauthorized (msg : String)
  | ok
deriving Repr, DecidableEq

/-- The `POST /api/chat` handler (routes.ts): reject when the message is
missing or empty (falsy in JavaScript), reject when the wallet is not
connected, otherwise forward to `openAIService.processMessage`.  The store
is available to the handler (through `storage`) but the handler never
consults it. -/
def chatHandler (message : Option String) (ws : WalletStatus) (_store : Store) : ChatResult :=
  match message with
  | none => .badRequest "Message is required"
  | some m =>
    if m = "" then .badRequest "Message is required"
    else if ws.connected then .ok
    else .unauthorized "Wallet not connected"

/-- Responses of `POST /api/wallet/register`. -/
inductive RegisterResult where
  | badRequest (msg : String)
  | ok (userId : Nat)
  | serverError
deriving Repr, DecidableEq

/-- `prisma.user.update({ where: { id }, data: { lastLogin: new Date() } })`. -/
def updateLastLogin (s : Store) (uid : Nat) : Store :=
  { s with users := s.users.map (fun u =>
      if u.id = uid then { u with lastLogin := some s.now } else u) }

/-- Create the default preference row for a fresh user, swallowing a failure
(`catch` with `// Continue even if preferences creation fails`). -/
def createDefaultPrefs (s : Store) (uid : Nat) : Store :=
  match createUserPreferences s uid "moderate-conservative" true with
  | .ok s' => s'
  | .error _ => s

/-- The `POST /api/wallet/register` handler.  `s0` is the store snapshot read
by the initial `getUserByWalletAddress`; `s1` is the store at the time
`createUser` runs (`s1 = s0` unless a concurrent request inserted rows in
between — the `P2002` catch exists for that interleaving).  When the user
already exists the handler updates `lastLogin` and answers with the existing
id; when `createUser` fails with `P2002` on `wallet_address` the handler
re-fetches and answers with the existing id; for a genuinely new user it
inserts the row, creates default preferences (ignoring a failure there) and
answers with the fresh id. -/
def registerHandler (walletAddress : Option String) (s0 s1 : Store) :
    Store × RegisterResult :=
  match walletAddress with
  | none => (s1, .badRequest "Wallet address is required")
  | some addr =>
    match getUserByWalletAddress s0 addr with
    | some u => (updateLastLogin s1 u.id, .ok u.id)
    | none =>
      match createUser s1 addr none none (some s1.now) with
      | .ok (s2, u) => (createDefaultPrefs s2 u.id, .ok u.id)
      | .error .p2002WalletAddress =>
        match getUserByWalletAddress s1 addr with
        | some u => (s1, .ok u.id)
        | none => (s1, .serverError)
      | .error _ => (s1, .serverError)

/-- The parsed body of `POST /api/wallet/subscribe` (after the zod schema:
`currency` defaults to `USDC`). -/
structure SubscribeRequest where
  walletAddress : String
  transactionHash : String
  amount : ℚ
  currency : String := "USDC"
deriving Repr, DecidableEq

/-- Responses of `POST /api/wallet/subscribe`: `success: true` with the
subscription and an optional message. -/
inductive SubscribeResult where
  | success (subscription : SubscriptionRow) (message : Option String)
  | serverError
deriving Repr, DecidableEq

/-- The `POST /api/wallet/subscribe` handler (routes.ts): resolve the user id
(from the session when connected, otherwise find-or-create by wallet
address); when the user already has an active subscription answer with it
and the message `Subscription already active` without writing anything;
otherwise insert a subscription row with `isActive: true`. -/
def subscribeHandler (ws : WalletStatus) (req : SubscribeRequest) (s : Store) :
    Store × SubscribeResult :=
  let resolved : Option (Store × Nat) :=
    match ws.connected, ws.userId with
    | true, some uid => some (s, uid)
    | _, _ =>
      match getUserByWalletAddress s req.walletAddress with
      | some u => some (s, u.id)
      | none =>
        match createUser s req.walletAddress none none (some s.now) with
        | .ok (s', u) => some (s', u.id)
        | .error .p2002WalletAddress =>
          match getUserByWalletAddress s req.walletAddress with
          | some u => some (s, u.id)
          | none => none
        | .error _ => none
  match resolved with
  | none => (s, .serverError)
  | some (s1, userId) =>
    match getUserSubscription s1 userId with
    | some existing =>
      if existing.isActive then
        (s1, .success existing (some "Subscription already active"))
      else
        let (s2, sub) := createSubscription s1 userId (some req.transactionHash)
          req.amount req.currency true
        (s2, .success sub none)
    | none =>
      let (s2, sub) := createSubscription s1 userId (some req.transactionHash)
        req.amount req.currency true
      (s2, .success sub none)

/-- The JSON body the client sends to `POST /api/portfolio/invest` (every
field optional on the wire). -/
structure InvestBody where
  userId : Option Nat := none
  opportunityId : Option Nat := none
  amount : Option ℚ := none
  depositDate : Option Nat := none
  token : Option String := none
  active : Option Bool := none
deriving Repr, DecidableEq

/-- `insertUserPortfolioSchema.parse`: `userId`, `opportunityId`, `amount`,
`depositDate` and `token` are required; `active` defaults to `true`. -/
def parseInsertUserPortfolio (b : InvestBody) : Except String InsertUserPortfolio :=
  match b.userId, b.opportunityId, b.amount, b.depositDate, b.token with
  | some _, some oid, some amt, some dd, some tok =>
    .ok { opportunityId := oid, amount := amt, depositDate := dd, token := tok,
          active := b.active.getD true }
  | _, _, _, _, _ => .error "Invalid investment data"

/-- Responses of `POST /api/portfolio/invest`. -/
inductive InvestEndpointResult where
  | unauthorized (msg : String)
  | badRequest (msg : String)
  | ok (position : PortfolioRow)
deriving Repr, DecidableEq

/-- The `POST /api/portfolio/invest` handler: require a connected session
with a user id, parse the body against `insertUserPortfolioSchema`, then
call `storage.createInvestment` with the session's user id rendered with
`toString()`. -/
def investEndpoint (ws : WalletStatus) (s : Store) (body : InvestBody) :
    Store × InvestEndpointResult :=
  match ws.connected, ws.userId with
  | true, some uid =>
    (match parseInsertUserPortfolio body with
     | .error e => (s, .badRequest e)
     | .ok data =>
       match createInvestment s (toString uid) data with
       | (s', .ok p) => (s', .ok p)
       | (s', .error e) => (s', .badRequest e))
  | _, _ => (s, .unauthorized "Not connected or user not found")

/-! ## USDC balance check (checkUsdcBalanceForLiquidity, rayStaking library) -/

/-- The slice of Raydium pool info the check reads (`poolInfo.mintB.decimals`). -/
structure PoolOracle where
  mintBDecimals : Nat
deriving Repr, DecidableEq

/-- Oracle outcomes for the external steps of `checkUsdcBalanceForLiquidity`:
`none` in a field models the corresponding SDK or RPC call throwing (or the
pool lookup coming back empty), which the function's `catch` turns into the
default result. -/
structure UsdcCheckEnv where
  poolFetch : Option PoolOracle
  pairMaxAnotherAmount : Option ℚ
  sdkUsdcRawAmount : Option Nat
  directUsdcBalance : Option ℚ
deriving Repr, DecidableEq

/-- The result shape of `checkUsdcBalanceForLiquidity`. -/
structure UsdcCheckResult where
  hasEnoughUsdc : Bool
  requiredUsdc : ℚ
  usdcBalance : ℚ
deriving Repr, DecidableEq

/-- The `try` body of `checkUsdcBalanceForLiquidity`: fetch the RAY-USDC
pool, compute the paired USDC amount at the current ratio with 1% slippage
(`computePairAmount`, an external SDK call modelled by the oracle), read the
USDC balance from the SDK token-account cache or by direct RPC query, and
compare.  `none` is the thrown-exception path. -/
def checkUsdcBalanceAttempt (env : UsdcCheckEnv) (_rayAmount : ℚ) :
    Option UsdcCheckResult := do
  let pool ← env.poolFetch
  let maxAnother ← env.pairMaxAnotherAmount
  let usdcBalance ←
    match env.sdkUsdcRawAmount with
    | some raw => some ((raw : ℚ) / 10 ^ pool.mintBDecimals)
    | none => env.directUsdcBalance
  let requiredUsdc := maxAnother
  some { hasEnoughUsdc := decide (requiredUsdc ≤ usdcBalance),
         requiredUsdc := requiredUsdc, usdcBalance := usdcBalance }

/-- `checkUsdcBalanceForLiquidity`: the `try` body with a `catch` that
returns `{ hasEnoughUsdc: false, requiredUsdc: 0, usdcBalance: 0 }` on any
internal failure. -/
def checkUsdcBalanceForLiquidity (env : UsdcCheckEnv) (rayAmount : ℚ) : UsdcCheckResult :=
  (checkUsdcBalanceAttempt env rayAmount).getD
    { hasEnoughUsdc := false, requiredUsdc := 0, usdcBalance := 0 }

/-! ## Client investment workflow (investment-modal.tsx, investMutation) -/

/-- Modal state entering `investMutation.mutationFn`: the parsed amount, the
target opportunity, whether the opportunity is the SOL/RAY pair, the
auto-stake checkbox, the previously fetched RAY estimate
(`getEstimatedRayOutput`, `null` until fetched) and the display currency. -/
structure InvestConfig where
  amountValue : ℚ
  opportunityId : Nat
  isSolRayPair : Bool
  autoStake : Bool
  estimatedRayAmount : Option ℚ := none
  currency : String := "SOL"
deriving Repr, DecidableEq

instance {ε α : Type} [DecidableEq ε] [DecidableEq α] : DecidableEq (Except ε α) := fun x y =>
  match x, y with
  | .error a, .error b =>
    if h : a = b then isTrue (by rw [h]) else isFalse (fun hc => by cases hc; exact h rfl)
  | .error _, .ok _ => isFalse (fun hc => by cases hc)
  | .ok _, .error _ => isFalse (fun hc => by cases hc)
  | .ok a, .ok b =>
    if h : a = b then isTrue (by rw [h]) else isFalse (fun hc => by cases hc; exact h rfl)

/-- Oracle outcomes for the external calls the workflow makes: wallet
availability, `swapSolToRay`, `getRayBalance`, the USDC check environment,
`addRayUsdcLiquidity`, `stakeRayToFarm`, plus the mint address of the
RAY-USDC liquidity-pool share token handled in stages 2 and 3
(`farmInfo.lpMint.address`). -/
structure InvestEnv where
  walletReady : Bool
  swapResult : Except String String
  rayFound : Bool
  rayBalance : ℚ
  usdcEnv : UsdcCheckEnv
  liquidityResult : Except String String
  stakeResult : Except String String
  lpMint : String
deriving Repr, DecidableEq

/-- JavaScript `estimatedRayAmount || amountValue`: `null` and `0` are both
falsy, so either falls back to the entered amount. -/
def jsOrAmount (o : Option ℚ) (fallback : ℚ) : ℚ :=
  match o with
  | some x => if x = 0 then fallback else x
  | none => fallback

/-- How far the optional liquidity/stake stages got.  This mirrors the
control flow of the `autoStake` block: every failure is caught by the inner
`catch`, which never rethrows, so the workflow records the investment
afterwards in every case. -/
inductive StakeStage where
  | notAttempted
  | rayMissing
  | insufficientUsdc (requiredUsdc usdcBalance : ℚ)
  | liquidityFailed (msg : String)
  | stakeFailed (liquidityTx : String) (msg : String)
  | completed (liquidityTx stakeTx : String)
deriving Repr, DecidableEq

/-- The body the modal posts to `POST /api/portfolio/invest` at the record
step: `{ opportunityId, amount: amountValue, token }`. -/
structure RecordRequest where
  opportunityId : Nat
  amount : ℚ
  token : String
deriving Repr, DecidableEq

/-- A non-failed run of `investMutation.mutationFn`: the record request it
submits plus how far the optional stages got. -/
structure InvestRun where
  record : RecordRequest
  stage : StakeStage
deriving Repr, DecidableEq

/-- The `autoStake` block: verify RAY arrived (`getRayBalance`), take
`Math.min(rayBalance, estimatedRayAmount || amountValue)`, check the USDC
requirement, add liquidity, then stake.  Each early exit is a thrown error
swallowed by the inner `catch`. -/
def autoStakeAttempt (cfg : InvestConfig) (env : InvestEnv) : StakeStage :=
  if ¬env.rayFound ∨ env.rayBalance ≤ 0 then .rayMissing
  else
    let actualRayAmount := min env.rayBalance (jsOrAmount cfg.estimatedRayAmount cfg.amountValue)
    let chk := checkUsdcBalanceForLiquidity env.usdcEnv actualRayAmount
    if ¬chk.hasEnoughUsdc then .insufficientUsdc chk.requiredUsdc chk.usdcBalance
    else
      match env.liquidityResult with
      | .error e => .liquidityFailed e
      | .ok liquidityTx =>
        match env.stakeResult with
        | .error e => .stakeFailed liquidityTx e
        | .ok stakeTx => .completed liquidityTx stakeTx

/-- The message the outer `catch` of the swap stage throws in place of the
underlying error: `throw new Error('Failed to convert SOL to RAY. Please try again.')`. -/
def swapFailureMessage : String := "Failed to convert SOL to RAY. Please try again."

/-- `investMutation.mutationFn`: for the SOL/RAY pair, require the wallet and
run the swap — any error there reaches the outer `catch`, which aborts the
whole run with the fixed replacement message before any record request is
made; on swap success optionally run the auto-stake block (whose failures
are swallowed) and finally submit the record request with `token: "RAY"`.
For other opportunities the record request is submitted directly with the
display currency. -/
def investMutationFn (cfg : InvestConfig) (env : InvestEnv) : Except String InvestRun :=
  if cfg.isSolRayPair then
    if ¬env.walletReady then .error swapFailureMessage
    else
      match env.swapResult with
      | .error _ => .error swapFailureMessage
      | .ok _ =>
        let stage := if cfg.autoStake then autoStakeAttempt cfg env else .notAttempted
        .ok { record := { opportunityId := cfg.opportunityId, amount := cfg.amountValue,
                          token := "RAY" },
              stage := stage }
  else
    .ok { record := { opportunityId := cfg.opportunityId, amount := cfg.amountValue,
                      token := cfg.currency },
          stage := .notAttempted }

/-- The client workflow composed with the server endpoint: when the mutation
throws, no request reaches the server and the store is untouched; otherwise
the record request is posted to `POST /api/portfolio/invest`. -/
def runInvestWorkflow (cfg : InvestConfig) (env : InvestEnv) (ws : WalletStatus)
    (s : Store) : Store × Except String InvestEndpointResult :=
  match investMutationFn cfg env with
  | .error e => (s, .error e)
  | .ok run =>
    let body : InvestBody :=
      { opportunityId := some run.record.opportunityId, amount := some run.record.amount,
        token := some run.record.token }
    let (s', resp) := investEndpoint ws s body
    (s', .ok resp)

/-! ## Helper lemmas -/

theorem mem_insertDateDesc {x a : SubscriptionRow} {l : List SubscriptionRow} :
    a ∈ insertDateDesc x l ↔ a = x ∨ a ∈ l := by
  induction l with
  | nil => simp [insertDateDesc]
  | cons y ys ih =>
    unfold insertDateDesc
    by_cases h : y.subscriptionDate ≤ x.subscriptionDate
    · simp [h]
    · simp [h, ih]
      tauto

theorem mem_sortDateDesc {a : SubscriptionRow} {l : List SubscriptionRow} :
    a ∈ sortDateDesc l ↔ a ∈ l := by
  induction l with
  | nil => simp [sortDateDesc]
  | cons y ys ih => simp [sortDateDesc, mem_insertDateDesc, ih]

theorem users_of_createUserPreferences_ok {s s' : Store} {uid : Nat} {rt : String} {b : Bool}
    (h : createUserPreferences s uid rt b = .ok s') : s'.users = s.users := by
  unfold createUserPreferences at h
  split at h
  · cases h
  · cases h
    rfl

theorem getUserSubscription_spec {s : Store} {uid : Nat} {sub : SubscriptionRow}
    (h : getUserSubscription s uid = some sub) :
    sub ∈ s.subscriptions ∧ sub.userId = uid ∧ sub.isActive = true := by
  unfold getUserSubscription at h
  have hmem := List.mem_of_mem_head? h
  rw [mem_sortDateDesc] at hmem
  have := List.mem_filter.mp hmem
  refine ⟨this.1, ?_, ?_⟩
  · have hb := this.2
    simp only [Bool.and_eq_true, beq_iff_eq] at hb
    exact hb.1
  · have hb := this.2
    simp only [Bool.and_eq_true] at hb
    exact hb.2

/-! ## C1: the premium-endpoint subscription gate -/

/-- C1 counterexample.  The claim states that every request by a user
without an active subscription row to `POST /api/chat` is rejected.  In the
code the handler checks only that the wallet is connected: here user 1 has
no subscription row at all (`checkUserIsSubscribed` is `false`), yet the
chat request is accepted. -/
theorem chat_unsubscribed_user_granted :
    chatHandler (some "hi") { connected := true, userId := some 1, address := some "w1" }
      { users := [{ id := 1, walletAddress := "w1" }] } = .ok ∧
    checkUserIsSubscribed { users := [{ id := 1, walletAddress := "w1" }] } 1 = false :=
  ⟨rfl, rfl⟩

/-- C1, amended.  `POST /api/chat` rejects a request exactly when the
message is missing/empty or the wallet is not connected; it never consults
the subscription store.  In particular a connected user for whom
`checkUserIsSubscribed` returns `false` is granted access, and the handler
result does not depend on the store at all. -/
theorem chat_gate_checks_connection_only (m : String) (ws : WalletStatus) (s s' : Store)
    (uid : Nat) (hm : m ≠ "") (hc : ws.connected = true)
    (hsub : checkUserIsSubscribed s uid = false) :
    chatHandler (some m) ws s = .ok ∧
    chatHandler (some m) ws s = chatHandler (some m) ws s' := by
  unfold chatHandler
  simp [hm, hc]

/-- Witness for C1's amended theorem at a concrete store without any
subscription row. -/
theorem chat_gate_checks_connection_only_witness :
    checkUserIsSubscribed { users := [{ id := 1, walletAddress := "w1" }] } 1 = false ∧
    chatHandler (some "hi") { connected := true, userId := some 1, address := some "w1" }
      { users := [{ id := 1, walletAddress := "w1" }] } = .ok :=
  ⟨by decide,
   (chat_gate_checks_connection_only "hi"
     { connected := true, userId := some 1, address := some "w1" }
     { users := [{ id := 1, walletAddress := "w1" }] } { } 1
     (by decide) rfl (by decide)).1⟩

/-! ## C2: the recorded amount versus the swap's quoted output -/

/-- C2 counterexample.  The claim states that for a successful single-stage
swap the amount recorded via `POST /api/portfolio/invest` equals the swap's
quoted output minus the slippage incurred.  Concretely: 2 SOL are swapped,
the venue quotes 10 RAY and no slippage is incurred, yet the record request
carries amount 2 (the user-entered input amount), not 10. -/
theorem record_amount_ignores_quoted_output :
    investMutationFn
      { amountValue := 2, opportunityId := 1, isSolRayPair := true, autoStake := false,
        estimatedRayAmount := some 10 }
      { walletReady := true, swapResult := .ok "tx1", rayFound := true, rayBalance := 10,
        usdcEnv := { poolFetch := some { mintBDecimals := 6 },
                     pairMaxAnotherAmount := some 5,
                     sdkUsdcRawAmount := some 20000000, directUsdcBalance := none },
        liquidityResult := .ok "ltx", stakeResult := .ok "stx", lpMint := "LPMINT111" } =
      .ok { record := { opportunityId := 1, amount := 2, token := "RAY" },
            stage := .notAttempted } ∧
    (2 : ℚ) ≠ 10 - 0 := by
  exact ⟨rfl, by norm_num⟩

/-- C2, amended.  Whenever `investMutation.mutationFn` reaches the record
step, the amount it submits to `POST /api/portfolio/invest` equals the
user-entered input amount (`amountValue`), independent of the swap's quoted
output and of any slippage. -/
theorem record_amount_eq_input_amount (cfg : InvestConfig) (env : InvestEnv)
    (run : InvestRun) (h : investMutationFn cfg env = .ok run) :
    run.record.amount = cfg.amountValue ∧
    run.record.opportunityId = cfg.opportunityId := by
  unfold investMutationFn at h
  by_cases hp : cfg.isSolRayPair
  · simp only [hp, if_true] at h
    by_cases hw : env.walletReady
    · simp only [hw, not_true, if_false] at h
      cases hs : env.swapResult with
      | error e => rw [hs] at h; cases h
      | ok tx =>
        rw [hs] at h
        cases h
        exact ⟨rfl, rfl⟩
    · simp only [hw] at h
      cases h
  · simp only [hp, if_false] at h
    cases h
    exact ⟨rfl, rfl⟩

/-- Witness for C2's amended theorem at a concrete run. -/
theorem record_amount_eq_input_amount_witness :
    investMutationFn
      { amountValue := 3, opportunityId := 4, isSolRayPair := false, autoStake := false }
      { walletReady := true, swapResult := .ok "t", rayFound := true, rayBalance := 1,
        usdcEnv := { poolFetch := none, pairMaxAnotherAmount := none,
                     sdkUsdcRawAmount := none, directUsdcBalance := none },
        liquidityResult := .ok "l", stakeResult := .ok "s", lpMint := "LP" } =
      .ok { record := { opportunityId := 4, amount := 3, token := "SOL" },
            stage := .notAttempted } ∧
    ({ record := { opportunityId := 4, amount := 3, token := "SOL" },
       stage := .notAttempted } : InvestRun).record.amount = 3 :=
  ⟨by decide,
   (record_amount_eq_input_amount
     { amountValue := 3, opportunityId := 4, isSolRayPair := false, autoStake := false }
     { walletReady := true, swapResult := .ok "t", rayFound := true, rayBalance := 1,
       usdcEnv := { poolFetch := none, pairMaxAnotherAmount := none,
                    sdkUsdcRawAmount := none, directUsdcBalance := none },
       liquidityResult := .ok "l", stakeResult := .ok "s", lpMint := "LP" }
     { record := { opportunityId := 4, amount := 3, token := "SOL" },
       stage := .notAttempted }
     (by decide)).1⟩

/-! ## C3: the token recorded when the stake stage fails -/

/-- C3 counterexample.  The claim states that when `stakeRayToFarm` fails
after liquidity was added in stage 2, the recorded position's token equals
the liquidity-pool share token minted in stage 2.  In the code the record
request always carries the constant token `RAY` for the SOL/RAY pair: here
liquidity succeeds (`ltx`), the stake stage fails, the LP share mint is
`LPMINT111`, and the token submitted for recording is `RAY`, not the LP
share token. -/
theorem stake_fail_token_not_lp_share :
    investMutationFn
      { amountValue := 2, opportunityId := 1, isSolRayPair := true, autoStake := true,
        estimatedRayAmount := some 10 }
      { walletReady := true, swapResult := .ok "tx1", rayFound := true, rayBalance := 8,
        usdcEnv := { poolFetch := some { mintBDecimals := 6 },
                     pairMaxAnotherAmount := some 5,
                     sdkUsdcRawAmount := none, directUsdcBalance := some 20 },
        liquidityResult := .ok "ltx", stakeResult := .error "stake send failed",
        lpMint := "LPMINT111" } =
      .ok { record := { opportunityId := 1, amount := 2, token := "RAY" },
            stage := .stakeFailed "ltx" "stake send failed" } ∧
    ("RAY" : String) ≠ "LPMINT111" :=
  ⟨rfl, by decide⟩

/-- C3, amended.  If the stake stage fails after liquidity was added, the
workflow still records the position (the inner catch never rethrows), but
the token it submits is the constant `RAY` — the stage-1 intermediate
token — which is not the liquidity-pool share token (nor the reward-pool
receipt). -/
theorem stake_fail_records_ray_token (cfg : InvestConfig) (env : InvestEnv)
    (run : InvestRun) (ltx msg : String)
    (h : investMutationFn cfg env = .ok run)
    (hst : run.stage = .stakeFailed ltx msg) :
    run.record.token = "RAY" ∧
    (env.lpMint ≠ "RAY" → run.record.token ≠ env.lpMint) := by
  unfold investMutationFn at h
  by_cases hp : cfg.isSolRayPair
  · simp only [hp, if_true] at h
    by_cases hw : env.walletReady
    · simp only [hw, not_true, if_false] at h
      cases hs : env.swapResult with
      | error e => rw [hs] at h; cases h
      | ok tx =>
        rw [hs] at h
        cases h
        exact ⟨rfl, fun hlp => by simpa using (Ne.symm hlp)⟩
    · simp only [hw] at h
      cases h
  · simp only [hp, if_false] at h
    cases h
    cases hst

/-- Witness for C3's amended theorem at a concrete run in which liquidity
succeeded and the stake stage failed. -/
theorem stake_fail_records_ray_token_witness :
    investMutationFn
      { amountValue := 2, opportunityId := 1, isSolRayPair := true, autoStake := true,
        estimatedRayAmount := some 10 }
      { walletReady := true, swapResult := .ok "tx1", rayFound := true, rayBalance := 8,
        usdcEnv := { poolFetch := some { mintBDecimals := 6 },
                     pairMaxAnotherAmount := some 5,
                     sdkUsdcRawAmount := none, directUsdcBalance := some 20 },
        liquidityResult := .ok "ltx", stakeResult := .error "stake send failed",
        lpMint := "LPMINT111" } =
      .ok { record := { opportunityId := 1, amount := 2, token := "RAY" },
            stage := .stakeFailed "ltx" "stake send failed" } ∧
    ({ record := { opportunityId := 1, amount := 2, token := "RAY" },
       stage := .stakeFailed "ltx" "stake send failed" } : InvestRun).record.token = "RAY" :=
  ⟨by decide,
   (stake_fail_records_ray_token
     { amountValue := 2, opportunityId := 1, isSolRayPair := true, autoStake := true,
       estimatedRayAmount := some 10 }
     { walletReady := true, swapResult := .ok "tx1", rayFound := true, rayBalance := 8,
       usdcEnv := { poolFetch := some { mintBDecimals := 6 },
                    pairMaxAnotherAmount := some 5,
                    sdkUsdcRawAmount := none, directUsdcBalance := some 20 },
       liquidityResult := .ok "ltx", stakeResult := .error "stake send failed",
       lpMint := "LPMINT111" }
     { record := { opportunityId := 1, amount := 2, token := "RAY" },
       stage := .stakeFailed "ltx" "stake send failed" }
     "ltx" "stake send failed" (by decide) (by decide)).1⟩

/-! ## C4: the token recorded when the liquidity stage is skipped -/

/-- C4.  If the liquidity stage is skipped because the USDC balance is below
the required amount (the `hasEnoughUsdc` check computed by
`checkUsdcBalanceForLiquidity` at the current pool ratio with 1% slippage
fails, so the inner catch swallows the thrown error), the record request
carries the stage-1 intermediate token `RAY` with the entered amount, not
the target opportunity's LP share token. -/
theorem insufficient_usdc_records_ray_token (cfg : InvestConfig) (env : InvestEnv)
    (run : InvestRun) (req bal : ℚ)
    (h : investMutationFn cfg env = .ok run)
    (hst : run.stage = .insufficientUsdc req bal) :
    run.record = { opportunityId := cfg.opportunityId, amount := cfg.amountValue,
                   token := "RAY" } ∧
    (env.lpMint ≠ "RAY" → run.record.token ≠ env.lpMint) := by
  unfold investMutationFn at h
  by_cases hp : cfg.isSolRayPair
  · simp only [hp, if_true] at h
    by_cases hw : env.walletReady
    · simp only [hw, not_true, if_false] at h
      cases hs : env.swapResult with
      | error e => rw [hs] at h; cases h
      | ok tx =>
        rw [hs] at h
        cases h
        exact ⟨rfl, fun hlp => by simpa using (Ne.symm hlp)⟩
    · simp only [hw] at h
      cases h
  · simp only [hp, if_false] at h
    cases h
    cases hst

/-- Witness for C4 at a concrete run in which the USDC check reports a
balance of 20 against a requirement of 50, so stage 2 is skipped. -/
theorem insufficient_usdc_records_ray_token_witness :
    investMutationFn
      { amountValue := 2, opportunityId := 1, isSolRayPair := true, autoStake := true,
        estimatedRayAmount := some 10 }
      { walletReady := true, swapResult := .ok "tx1", rayFound := true, rayBalance := 8,
        usdcEnv := { poolFetch := some { mintBDecimals := 6 },
                     pairMaxAnotherAmount := some 50,
                     sdkUsdcRawAmount := none, directUsdcBalance := some 20 },
        liquidityResult := .ok "ltx", stakeResult := .ok "stx", lpMint := "LPMINT111" } =
      .ok { record := { opportunityId := 1, amount := 2, token := "RAY" },
            stage := .insufficientUsdc 50 20 } ∧
    ({ record := { opportunityId := 1, amount := 2, token := "RAY" },
       stage := .insufficientUsdc 50 20 } : InvestRun).record =
      { opportunityId := 1, amount := 2, token := "RAY" } :=
  ⟨by decide,
   (insufficient_usdc_records_ray_token
     { amountValue := 2, opportunityId := 1, isSolRayPair := true, autoStake := true,
       estimatedRayAmount := some 10 }
     { walletReady := true, swapResult := .ok "tx1", rayFound := true, rayBalance := 8,
       usdcEnv := { poolFetch := some { mintBDecimals := 6 },
                    pairMaxAnotherAmount := some 50,
                    sdkUsdcRawAmount := none, directUsdcBalance := some 20 },
       liquidityResult := .ok "ltx", stakeResult := .ok "stx", lpMint := "LPMINT111" }
     { record := { opportunityId := 1, amount := 2, token := "RAY" },
       stage := .insufficientUsdc 50 20 }
     50 20 (by decide) (by decide)).1⟩

/-! ## C5: stage-1 failure persists nothing -/

/-- C5.  When the swap stage fails, `investMutation.mutationFn` throws before
any request reaches `POST /api/portfolio/invest`: the store is unchanged (no
portfolio row, no transaction row), and re-invoking the workflow with the
same inputs leaves the store unchanged again. -/
theorem swap_failure_persists_nothing (cfg : InvestConfig) (env : InvestEnv)
    (ws : WalletStatus) (s : Store) (e : String)
    (hp : cfg.isSolRayPair = true) (hw : env.walletReady = true)
    (hs : env.swapResult = .error e) :
    (runInvestWorkflow cfg env ws s).1 = s ∧
    (runInvestWorkflow cfg env ws s).2 = .error swapFailureMessage ∧
    (runInvestWorkflow cfg env ws (runInvestWorkflow cfg env ws s).1).1 = s := by
  unfold runInvestWorkflow investMutationFn
  simp [hp, hw, hs]

/-- Witness for C5 at a concrete failing swap. -/
theorem swap_failure_persists_nothing_witness :
    (({ amountValue := 2, opportunityId := 1, isSolRayPair := true,
        autoStake := false } : InvestConfig).isSolRayPair = true) ∧
    (runInvestWorkflow
      { amountValue := 2, opportunityId := 1, isSolRayPair := true, autoStake := false }
      { walletReady := true, swapResult := .error "rpc timeout", rayFound := false,
        rayBalance := 0,
        usdcEnv := { poolFetch := none, pairMaxAnotherAmount := none,
                     sdkUsdcRawAmount := none, directUsdcBalance := none },
        liquidityResult := .error "n", stakeResult := .error "n", lpMint := "LP" }
      { connected := true, userId := some 1 }
      { users := [{ id := 1, walletAddress := "w1" }] }).1 =
      { users := [{ id := 1, walletAddress := "w1" }] } :=
  ⟨by decide,
   (swap_failure_persists_nothing
     { amountValue := 2, opportunityId := 1, isSolRayPair := true, autoStake := false }
     { walletReady := true, swapResult := .error "rpc timeout", rayFound := false,
       rayBalance := 0,
       usdcEnv := { poolFetch := none, pairMaxAnotherAmount := none,
                    sdkUsdcRawAmount := none, directUsdcBalance := none },
       liquidityResult := .error "n", stakeResult := .error "n", lpMint := "LP" }
     { connected := true, userId := some 1 }
     { users := [{ id := 1, walletAddress := "w1" }] }
     "rpc timeout" (by decide) (by decide) (by decide)).1⟩

/-! ## C6: the error surfaced on a hard swap failure -/

/-- C6 counterexample.  The claim states the underlying error is surfaced
verbatim to the caller.  Here the swap fails with `boom`, yet the workflow
surfaces the fixed replacement message thrown by the outer catch, which
differs from `boom`. -/
theorem swap_error_not_verbatim :
    investMutationFn
      { amountValue := 2, opportunityId := 1, isSolRayPair := true, autoStake := false }
      { walletReady := true, swapResult := .error "boom", rayFound := false, rayBalance := 0,
        usdcEnv := { poolFetch := none, pairMaxAnotherAmount := none,
                     sdkUsdcRawAmount := none, directUsdcBalance := none },
        liquidityResult := .error "n", stakeResult := .error "n", lpMint := "LP" } =
      .error "Failed to convert SOL to RAY. Please try again." ∧
    ("Failed to convert SOL to RAY. Please try again." : String) ≠ "boom" :=
  ⟨rfl, by decide⟩

/-- C6, amended.  When the swap stage fails hard the workflow aborts with no
record request (and hence no position recorded), but the error surfaced to
the caller is the fixed message `Failed to convert SOL to RAY. Please try
again.` thrown by the modal's catch, replacing — not quoting — the
underlying error (`swapSolToRay` itself rethrows the underlying error
verbatim; the orchestrator's catch then substitutes the fixed message). -/
theorem swap_failure_aborts_with_fixed_message (cfg : InvestConfig) (env : InvestEnv)
    (e : String) (hp : cfg.isSolRayPair = true) (hw : env.walletReady = true)
    (hs : env.swapResult = .error e) :
    investMutationFn cfg env = .error swapFailureMessage := by
  unfold investMutationFn
  simp [hp, hw, hs]

/-- Witness for C6's amended theorem at a concrete failing swap. -/
theorem swap_failure_aborts_with_fixed_message_witness :
    (({ walletReady := true, swapResult := .error "boom2", rayFound := false,
        rayBalance := 0,
        usdcEnv := { poolFetch := none, pairMaxAnotherAmount := none,
                     sdkUsdcRawAmount := none, directUsdcBalance := none },
        liquidityResult := .error "n", stakeResult := .error "n",
        lpMint := "LP" } : InvestEnv).swapResult = .error "boom2") ∧
    investMutationFn
      { amountValue := 1, opportunityId := 2, isSolRayPair := true, autoStake := true }
      { walletReady := true, swapResult := .error "boom2", rayFound := false,
        rayBalance := 0,
        usdcEnv := { poolFetch := none, pairMaxAnotherAmount := none,
                     sdkUsdcRawAmount := none, directUsdcBalance := none },
        liquidityResult := .error "n", stakeResult := .error "n", lpMint := "LP" } =
      .error swapFailureMessage :=
  ⟨by decide,
   swap_failure_aborts_with_fixed_message
     { amountValue := 1, opportunityId := 2, isSolRayPair := true, autoStake := true }
     { walletReady := true, swapResult := .error "boom2", rayFound := false,
       rayBalance := 0,
       usdcEnv := { poolFetch := none, pairMaxAnotherAmount := none,
                    sdkUsdcRawAmount := none, directUsdcBalance := none },
       liquidityResult := .error "n", stakeResult := .error "n", lpMint := "LP" }
     "boom2" (by decide) (by decide) (by decide)⟩

/-! ## C7: createInvestment writes a portfolio row and a transaction row -/

theorem createInvestment_fst_rows (s : Store) (userId : String) (n : Nat)
    (data : InsertUserPortfolio) (h : parseIntJs userId = some n) :
    (createInvestment s userId data).1.portfolios =
      s.portfolios ++
        [{ id := s.nextPortfolioId, userId := n, opportunityId := data.opportunityId,
           amount := data.amount, depositDate := data.depositDate, token := data.token,
           active := data.active }] ∧
    (createInvestment s userId data).1.transactions =
      s.transactions ++
        [{ id := s.nextTxId, userId := n, opportunityId := data.opportunityId,
           transactionType := "invest", amount := data.amount, token := data.token,
           transactionDate := s.now, status := "completed",
           transactionHash := some s.freshHash }] := by
  unfold createInvestment
  rw [h]
  cases hf : s.opportunities.find? (fun o => o.id == data.opportunityId) <;> simp [hf]

/-- C7.  Every call to `createInvestment` with a numeric user id writes both
a portfolio row and a transaction row for the same user, opportunity, amount
and token, with the transaction row having type `invest` and status
`completed` — independent of which orchestration step produced the request
(the rows are written before the opportunity lookup and persist even when
that lookup fails). -/
theorem createInvestment_writes_both_rows (s : Store) (userId : String) (n : Nat)
    (data : InsertUserPortfolio) (h : parseIntJs userId = some n) :
    (∃ p ∈ (createInvestment s userId data).1.portfolios,
       p.userId = n ∧ p.opportunityId = data.opportunityId ∧
       p.amount = data.amount ∧ p.token = data.token) ∧
    (∃ t ∈ (createInvestment s userId data).1.transactions,
       t.userId = n ∧ t.opportunityId = data.opportunityId ∧
       t.amount = data.amount ∧ t.token = data.token ∧
       t.transactionType = "invest" ∧ t.status = "completed") := by
  obtain ⟨hp, ht⟩ := createInvestment_fst_rows s userId n data h
  constructor
  · refine ⟨{ id := s.nextPortfolioId, userId := n, opportunityId := data.opportunityId,
              amount := data.amount, depositDate := data.depositDate, token := data.token,
              active := data.active }, ?_, rfl, rfl, rfl, rfl⟩
    rw [hp]
    exact List.mem_append_right _ (List.mem_singleton_self _)
  · refine ⟨{ id := s.nextTxId, userId := n, opportunityId := data.opportunityId,
              transactionType := "invest", amount := data.amount, token := data.token,
              transactionDate := s.now, status := "completed",
              transactionHash := some s.freshHash }, ?_, rfl, rfl, rfl, rfl, rfl, rfl⟩
    rw [ht]
    exact List.mem_append_right _ (List.mem_singleton_self _)

/-- Witness for C7 at user id string `7` and a concrete request. -/
theorem createInvestment_writes_both_rows_witness :
    parseIntJs "7" = some 7 ∧
    ((∃ p ∈ (createInvestment { }
        "7" { opportunityId := 1, amount := 5, depositDate := 3, token := "RAY",
              active := true }).1.portfolios,
       p.userId = 7 ∧ p.opportunityId = 1 ∧ p.amount = 5 ∧ p.token = "RAY") ∧
     (∃ t ∈ (createInvestment { }
        "7" { opportunityId := 1, amount := 5, depositDate := 3, token := "RAY",
              active := true }).1.transactions,
       t.userId = 7 ∧ t.opportunityId = 1 ∧ t.amount = 5 ∧ t.token = "RAY" ∧
       t.transactionType = "invest" ∧ t.status = "completed")) :=
  ⟨by decide,
   createInvestment_writes_both_rows { } "7" 7
     { opportunityId := 1, amount := 5, depositDate := 3, token := "RAY", active := true }
     (by decide)⟩

/-! ## C8: uniqueness of the wallet address across user rows -/

theorem users_createDefaultPrefs (s : Store) (uid : Nat) :
    (createDefaultPrefs s uid).users = s.users := by
  unfold createDefaultPrefs
  cases hcp : createUserPreferences s uid "moderate-conservative" true with
  | ok s' => exact users_of_createUserPreferences_ok hcp
  | error e => rfl

theorem registerHandler_found (s1 : Store) {s0 : Store} {addr : String} {u : UserRow}
    (h : getUserByWalletAddress s0 addr = some u) :
    registerHandler (some addr) s0 s1 = (updateLastLogin s1 u.id, .ok u.id) := by
  simp [registerHandler, h]

theorem registerHandler_race {s0 s1 : Store} {addr : String} {w : UserRow}
    (h0 : getUserByWalletAddress s0 addr = none)
    (hany : s1.users.any (fun u => u.walletAddress == addr) = true)
    (h1 : getUserByWalletAddress s1 addr = some w) :
    registerHandler (some addr) s0 s1 = (s1, .ok w.id) := by
  simp [registerHandler, createUser, h0, hany, h1]

theorem registerHandler_race_lost {s0 s1 : Store} {addr : String}
    (h0 : getUserByWalletAddress s0 addr = none)
    (hany : s1.users.any (fun u => u.walletAddress == addr) = true)
    (h1 : getUserByWalletAddress s1 addr = none) :
    registerHandler (some addr) s0 s1 = (s1, .serverError) := by
  simp [registerHandler, createUser, h0, hany, h1]

theorem registerHandler_fresh {s0 s1 : Store} {addr : String}
    (h0 : getUserByWalletAddress s0 addr = none)
    (hany : s1.users.any (fun u => u.walletAddress == addr) = false) :
    (registerHandler (some addr) s0 s1).1.users =
      s1.users ++ [{ id := s1.nextUserId, walletAddress := addr, username := none,
                     email := none, lastLogin := some s1.now }] ∧
    (registerHandler (some addr) s0 s1).2 = .ok s1.nextUserId := by
  simp [registerHandler, createUser, h0, hany, users_createDefaultPrefs]

theorem updateLastLogin_map {α : Type} (s : Store) (uid : Nat) (f : UserRow → α)
    (hf : ∀ x : UserRow, f { x with lastLogin := some s.now } = f x) :
    (updateLastLogin s uid).users.map f = s.users.map f := by
  unfold updateLastLogin
  rw [List.map_map]
  refine List.map_congr_left ?_
  intro x _
  simp only [Function.comp_apply]
  by_cases hx : x.id = uid
  · rw [if_pos hx]
    exact hf x
  · rw [if_neg hx]

/-- C8.  Registering a wallet address preserves the invariant that each
wallet address has at most one user row, and when the address is already
registered at the time the insert would run — including the concurrent case
in which the initial lookup (snapshot `s0`) missed it but the insert then
fails with `P2002` against `s1` — the handler creates no new user row and
responds with the existing user's id. -/
theorem register_wallet_address_unique (addr : String) (s0 s1 : Store)
    (hmono : ∀ u ∈ s0.users, u ∈ s1.users) :
    ((s1.users.map (fun u => u.walletAddress)).Pairwise (· ≠ ·) →
      ((registerHandler (some addr) s0 s1).1.users.map
        (fun u => u.walletAddress)).Pairwise (· ≠ ·)) ∧
    ((∃ u ∈ s1.users, u.walletAddress = addr) →
      ((registerHandler (some addr) s0 s1).1.users.map
          (fun u => (u.id, u.walletAddress)) =
        s1.users.map (fun u => (u.id, u.walletAddress))) ∧
      ∃ u ∈ s1.users, u.walletAddress = addr ∧
        (registerHandler (some addr) s0 s1).2 = .ok u.id) := by
  cases hf0 : getUserByWalletAddress s0 addr with
  | some u =>
    have hred := registerHandler_found s1 hf0
    have hu1 : u ∈ s1.users := hmono u (List.mem_of_find?_eq_some hf0)
    have huaddr : u.walletAddress = addr := by
      have := List.find?_some hf0
      simpa using this
    rw [hred]
    constructor
    · intro hpw
      have hm := updateLastLogin_map s1 u.id
        (fun v => v.walletAddress) (fun x => rfl)
      dsimp only
      rw [hm]
      exact hpw
    · intro _
      refine ⟨?_, u, hu1, huaddr, rfl⟩
      have hm := updateLastLogin_map s1 u.id
        (fun v => (v.id, v.walletAddress)) (fun x => rfl)
      dsimp only
      rw [hm]
  | none =>
    cases hany : s1.users.any (fun u => u.walletAddress == addr) with
    | true =>
      cases hf1 : getUserByWalletAddress s1 addr with
      | some w =>
        have hred := registerHandler_race hf0 hany hf1
        rw [hred]
        have hw1 : w ∈ s1.users := List.mem_of_find?_eq_some hf1
        have hwaddr : w.walletAddress = addr := by
          have := List.find?_some hf1
          simpa using this
        exact ⟨fun hpw => hpw, fun _ => ⟨rfl, w, hw1, hwaddr, rfl⟩⟩
      | none =>
        have hred := registerHandler_race_lost hf0 hany hf1
        rw [hred]
        refine ⟨fun hpw => hpw, fun hex => ?_⟩
        exfalso
        obtain ⟨u, hu, huaddr⟩ := hex
        have := List.find?_eq_none.mp hf1 u hu
        simp [huaddr] at this
    | false =>
      obtain ⟨husers, hresp⟩ := registerHandler_fresh hf0 hany
      constructor
      · intro hpw
        rw [husers, List.map_append, List.pairwise_append]
        refine ⟨hpw, by simp, ?_⟩
        intro a ha b hb
        simp only [List.map_cons, List.map_nil, List.mem_singleton] at hb
        subst hb
        obtain ⟨x, hx, rfl⟩ := List.mem_map.mp ha
        have hxa := List.any_eq_false.mp hany x hx
        simpa using hxa
      · intro hex
        exfalso
        obtain ⟨u, hu, huaddr⟩ := hex
        have := List.any_eq_false.mp hany u hu
        simp [huaddr] at this

/-- Witness for C8's theorem: the address `w1` is already registered in
`s1`, the initial lookup ran against the same store, and the handler answers
with the existing id without adding a row. -/
theorem register_wallet_address_unique_witness :
    (∃ u ∈ ({ users := [{ id := 1, walletAddress := "w1" }] } : Store).users,
       u.walletAddress = "w1") ∧
    ((registerHandler (some "w1") { users := [{ id := 1, walletAddress := "w1" }] }
        { users := [{ id := 1, walletAddress := "w1" }] }).1.users.map
        (fun u => (u.id, u.walletAddress)) =
      ({ users := [{ id := 1, walletAddress := "w1" }] } : Store).users.map
        (fun u => (u.id, u.walletAddress))) ∧
    (∃ u ∈ ({ users := [{ id := 1, walletAddress := "w1" }] } : Store).users,
       u.walletAddress = "w1" ∧
       (registerHandler (some "w1") { users := [{ id := 1, walletAddress := "w1" }] }
         { users := [{ id := 1, walletAddress := "w1" }] }).2 = .ok u.id) :=
  ⟨⟨{ id := 1, walletAddress := "w1" }, by decide, rfl⟩,
   (register_wallet_address_unique "w1"
     { users := [{ id := 1, walletAddress := "w1" }] }
     { users := [{ id := 1, walletAddress := "w1" }] }
     (fun u hu => hu)).2
     ⟨{ id := 1, walletAddress := "w1" }, by decide, rfl⟩⟩

/-! ## C9: idempotence of subscribing with an active subscription -/

/-- C9.  `POST /api/wallet/subscribe` for a session user who already has an
active subscription row creates no subscription row (the store is returned
unchanged) and responds with the existing subscription, success and the
message `Subscription already active`. -/
theorem subscribe_already_active_idempotent (ws : WalletStatus) (req : SubscribeRequest)
    (s : Store) (uid : Nat) (hc : ws.connected = true) (hu : ws.userId = some uid)
    (hsub : checkUserIsSubscribed s uid = true) :
    ∃ sub, getUserSubscription s uid = some sub ∧ sub ∈ s.subscriptions ∧
      sub.userId = uid ∧ sub.isActive = true ∧
      subscribeHandler ws req s = (s, .success sub (some "Subscription already active")) := by
  cases hg : getUserSubscription s uid with
  | none => simp [checkUserIsSubscribed, hg] at hsub
  | some sub =>
    obtain ⟨hmem, huid, hact⟩ := getUserSubscription_spec hg
    refine ⟨sub, rfl, hmem, huid, hact, ?_⟩
    simp [subscribeHandler, hc, hu, hg, hact]

/-- Witness for C9 at a store holding one active subscription for user 1. -/
theorem subscribe_already_active_idempotent_witness :
    checkUserIsSubscribed ({ subscriptions := [{ id := 1, userId := 1, subscriptionDate := 5, transactionHash := some "h", amount := 1 }] } : Store) 1 = true ∧
    (∃ sub, getUserSubscription ({ subscriptions := [{ id := 1, userId := 1, subscriptionDate := 5, transactionHash := some "h", amount := 1 }] } : Store) 1 = some sub ∧
      sub ∈ ({ subscriptions := [{ id := 1, userId := 1, subscriptionDate := 5, transactionHash := some "h", amount := 1 }] } : Store).subscriptions ∧
      sub.userId = 1 ∧ sub.isActive = true ∧
      subscribeHandler { connected := true, userId := some 1 }
          { walletAddress := "w1", transactionHash := "th", amount := 1 }
          ({ subscriptions := [{ id := 1, userId := 1, subscriptionDate := 5, transactionHash := some "h", amount := 1 }] } : Store) =
        (({ subscriptions := [{ id := 1, userId := 1, subscriptionDate := 5, transactionHash := some "h", amount := 1 }] } : Store),
         .success sub (some "Subscription already active"))) :=
  ⟨by decide,
   subscribe_already_active_idempotent { connected := true, userId := some 1 }
     { walletAddress := "w1", transactionHash := "th", amount := 1 }
     ({ subscriptions := [{ id := 1, userId := 1, subscriptionDate := 5, transactionHash := some "h", amount := 1 }] } : Store) 1
     rfl rfl (by decide)⟩

/-! ## C10: totality and failure behaviour of the USDC check -/

/-- C10.  `checkUsdcBalanceForLiquidity` is total: when any internal step
fails (the `try` body, `checkUsdcBalanceAttempt`, produces no value) it
returns `{ hasEnoughUsdc := false, requiredUsdc := 0, usdcBalance := 0 }`,
reporting the failure to its callers as insufficient balance rather than as
an error; and when the body succeeds the result is exactly the computed one,
whose flag compares the balance against the requirement. -/
theorem usdc_check_failure_reports_insufficient (env : UsdcCheckEnv) (rayAmount : ℚ) :
    (checkUsdcBalanceAttempt env rayAmount = none →
      checkUsdcBalanceForLiquidity env rayAmount =
        { hasEnoughUsdc := false, requiredUsdc := 0, usdcBalance := 0 }) ∧
    (∀ r, checkUsdcBalanceAttempt env rayAmount = some r →
      checkUsdcBalanceForLiquidity env rayAmount = r ∧
      r.hasEnoughUsdc = decide (r.requiredUsdc ≤ r.usdcBalance)) := by
  constructor
  · intro h
    unfold checkUsdcBalanceForLiquidity
    rw [h]
    rfl
  · intro r h
    refine ⟨by unfold checkUsdcBalanceForLiquidity; rw [h]; rfl, ?_⟩
    unfold checkUsdcBalanceAttempt at h
    cases hp : env.poolFetch with
    | none => rw [hp] at h; cases h
    | some pool =>
      rw [hp] at h
      cases hm : env.pairMaxAnotherAmount with
      | none => rw [hm] at h; cases h
      | some maxAnother =>
        rw [hm] at h
        cases hs : env.sdkUsdcRawAmount with
        | some raw =>
          rw [hs] at h
          simp only [Option.bind_eq_bind, Option.some_bind, Option.some.injEq] at h
          subst h
          rfl
        | none =>
          rw [hs] at h
          cases hd : env.directUsdcBalance with
          | none => rw [hd] at h; cases h
          | some b =>
            rw [hd] at h
            simp only [Option.bind_eq_bind, Option.some_bind, Option.some.injEq] at h
            subst h
            rfl

/-- Witness for C10: with every oracle failing, the check returns the
default insufficient result. -/
theorem usdc_check_failure_reports_insufficient_witness :
    checkUsdcBalanceAttempt
      { poolFetch := none, pairMaxAnotherAmount := none, sdkUsdcRawAmount := none,
        directUsdcBalance := none } 3 = none ∧
    checkUsdcBalanceForLiquidity
      { poolFetch := none, pairMaxAnotherAmount := none, sdkUsdcRawAmount := none,
        directUsdcBalance := none } 3 =
      { hasEnoughUsdc := false, requiredUsdc := 0, usdcBalance := 0 } :=
  ⟨by decide,
   (usdc_check_failure_reports_insufficient
     { poolFetch := none, pairMaxAnotherAmount := none, sdkUsdcRawAmount := none,
       directUsdcBalance := none } 3).1 (by decide)⟩

end SolYield
